import Mathlib

/-!
# Verification of the VAX action-history core (bnggbn/vax-action-history)

Shallow embedding of the C sources under `src/c/` and proofs of the claims
about them.  Bytes are modelled as `Nat` values below 256, byte buffers as
`List Nat`, and the `uint16_t` counters as `Nat` with explicit `< 65536`
bounds where they matter.  The cryptographic primitives the C code obtains
from OpenSSL (`SHA256`, `HMAC`) are embedded as the standard FIPS 180-4 /
RFC 2104 algorithms, executable by the kernel.
-/

namespace Vax

/-! ## SHA-256 (FIPS 180-4), the hash the C code calls via OpenSSL -/

/-- Truncate to a 32-bit word. -/
def w32 (x : Nat) : Nat := x % 4294967296

/-- Rotate a 32-bit word right by `n`. -/
def rotr (n x : Nat) : Nat := w32 ((x >>> n) ||| (x <<< (32 - n)))

/-- Big-endian bytes of a 32-bit word. -/
def be32 (x : Nat) : List Nat :=
  [(x >>> 24) &&& 255, (x >>> 16) &&& 255, (x >>> 8) &&& 255, x &&& 255]

/-- Big-endian bytes of a 64-bit word. -/
def be64 (x : Nat) : List Nat :=
  [(x >>> 56) &&& 255, (x >>> 48) &&& 255, (x >>> 40) &&& 255,
   (x >>> 32) &&& 255, (x >>> 24) &&& 255, (x >>> 16) &&& 255,
   (x >>> 8) &&& 255, x &&& 255]

/-- The 64 SHA-256 round constants (FIPS 180-4 §4.2.2, written in decimal). -/
def sha256K : List Nat :=
  [1116352408, 1899447441, 3049323471, 3921009573, 961987163,
   1508970993, 2453635748, 2870763221, 3624381080, 310598401,
   607225278, 1426881987, 1925078388, 2162078206, 2614888103,
   3248222580, 3835390401, 4022224774, 264347078, 604807628,
   770255983, 1249150122, 1555081692, 1996064986, 2554220882,
   2821834349, 2952996808, 3210313671, 3336571891, 3584528711,
   113926993, 338241895, 666307205, 773529912, 1294757372,
   1396182291, 1695183700, 1986661051, 2177026350, 2456956037,
   2730485921, 2820302411, 3259730800, 3345764771, 3516065817,
   3600352804, 4094571909, 275423344, 430227734, 506948616,
   659060556, 883997877, 958139571, 1322822218, 1537002063,
   1747873779, 1955562222, 2024104815, 2227730452, 2361852424,
   2428436474, 2756734187, 3204031479, 3329325298]

/-- Working state of one SHA-256 compression: the eight 32-bit words. -/
structure Sha256State where
  a : Nat
  b : Nat
  c : Nat
  d : Nat
  e : Nat
  f : Nat
  g : Nat
  h : Nat
  deriving DecidableEq

/-- Initial SHA-256 hash value H⁽⁰⁾ (FIPS 180-4 §5.3.3, written in decimal). -/
def sha256Init : Sha256State :=
  ⟨1779033703, 3144134277, 1013904242, 2773480762,
   1359893119, 2600822924, 528734635, 1541459225⟩

/-- Small sigma functions of the message schedule. -/
def ssig0 (x : Nat) : Nat := rotr 7 x ^^^ rotr 18 x ^^^ (x >>> 3)

def ssig1 (x : Nat) : Nat := rotr 17 x ^^^ rotr 19 x ^^^ (x >>> 10)

/-- Big sigma functions of the round function. -/
def bsig0 (x : Nat) : Nat := rotr 2 x ^^^ rotr 13 x ^^^ rotr 22 x

def bsig1 (x : Nat) : Nat := rotr 6 x ^^^ rotr 11 x ^^^ rotr 25 x

/-- One step of extending the message schedule by one word. -/
def extendStep (w : List Nat) : List Nat :=
  let n := w.length
  w ++ [w32 (ssig1 (w.getD (n - 2) 0) + w.getD (n - 7) 0 +
             ssig0 (w.getD (n - 15) 0) + w.getD (n - 16) 0)]

/-- Extend the schedule `k` times. -/
def extendW : Nat → List Nat → List Nat
  | 0, w => w
  | k + 1, w => extendW k (extendStep w)

/-- Group a byte list into big-endian 32-bit words. -/
def toWords : List Nat → List Nat
  | b0 :: b1 :: b2 :: b3 :: rest =>
      (b0 * 16777216 + b1 * 65536 + b2 * 256 + b3) :: toWords rest
  | _ => []

/-- One SHA-256 round, consuming the combined constant-plus-schedule word. -/
def sha256Round (s : Sha256State) (kw : Nat) : Sha256State :=
  let t1 := w32 (s.h + bsig1 s.e + ((s.e &&& s.f) ^^^ ((s.e ^^^ 4294967295) &&& s.g)) + kw)
  let t2 := w32 (bsig0 s.a + ((s.a &&& s.b) ^^^ (s.a &&& s.c) ^^^ (s.b &&& s.c)))
  ⟨w32 (t1 + t2), s.a, s.b, s.c, w32 (s.d + t1), s.e, s.f, s.g⟩

/-- Compress one 64-byte block into the running hash state. -/
def compressBlock (s : Sha256State) (block : List Nat) : Sha256State :=
  let ws := extendW 48 (toWords block)
  let kws := (sha256K.zip ws).map (fun p => w32 (p.1 + p.2))
  let t := kws.foldl sha256Round s
  ⟨w32 (s.a + t.a), w32 (s.b + t.b), w32 (s.c + t.c), w32 (s.d + t.d),
   w32 (s.e + t.e), w32 (s.f + t.f), w32 (s.g + t.g), w32 (s.h + t.h)⟩

/-- SHA-256 padding: append `0x80`, zeros, and the 64-bit bit length. -/
def sha256Pad (msg : List Nat) : List Nat :=
  let len := msg.length
  let zeros := (64 - ((len + 9) % 64)) % 64
  msg ++ [0x80] ++ List.replicate zeros 0 ++ be64 (8 * len)

/-- Split a byte list into 64-byte blocks, structurally via a fuel bound so
that the kernel can evaluate it (fuel `l.length` always suffices, since each
step drops 64 ≥ 1 bytes of a non-empty list). -/
def chunksAux : Nat → List Nat → List (List Nat)
  | _, [] => []
  | 0, _ :: _ => []
  | fuel + 1, l => l.take 64 :: chunksAux fuel (l.drop 64)

/-- Split a byte list into 64-byte blocks. -/
def chunks64 (l : List Nat) : List (List Nat) := chunksAux l.length l

/-- The 32 digest bytes of a final state, big-endian per word. -/
def stateBytes (s : Sha256State) : List Nat :=
  be32 s.a ++ be32 s.b ++ be32 s.c ++ be32 s.d ++
  be32 s.e ++ be32 s.f ++ be32 s.g ++ be32 s.h

/-- SHA-256 of a byte list. -/
def sha256 (msg : List Nat) : List Nat :=
  stateBytes ((chunks64 (sha256Pad msg)).foldl compressBlock sha256Init)

/-! ## HMAC-SHA256 (RFC 2104), as computed by the OpenSSL call `HMAC(EVP_sha256(), ...)` -/

/-- HMAC-SHA256 with byte-list key and message (block size 64). -/
def hmac_sha256 (key msg : List Nat) : List Nat :=
  let kh := if key.length > 64 then sha256 key else key
  let k0 := kh ++ List.replicate (64 - kh.length) 0
  let ipadded := k0.map (fun b => b ^^^ 0x36)
  let opadded := k0.map (fun b => b ^^^ 0x5c)
  sha256 (opadded ++ sha256 (ipadded ++ msg))

/-! ## Data model of the C sources

The result enum.  The repository carries two conflicting versions of the
header (`src/c/include/vax.h` and the header stored as `src/c/src/sai.c`);
this inductive is the union of the constructors the two enums declare, so
every error either file mentions is representable. -/

inductive vax_result_t where
  | VAX_OK
  | VAX_ERR_INVALID_COUNTER
  | VAX_ERR_INVALID_PREV_SAI
  | VAX_ERR_INVALID_CANONICALIZATION
  | VAX_ERR_SAI_MISMATCH
  | VAX_ERR_GI_MISMATCH
  | VAX_ERR_OUT_OF_MEMORY
  | VAX_ERR_INVALID_INPUT
  | VAX_ERR_ACTOR_MISMATCH
  | VAX_ERR_COUNTER_OVERFLOW
  deriving DecidableEq

/-- The ASCII bytes of the domain-separation label "VAX-GI" (gi.c line 22). -/
def giLabel : List Nat := [0x56, 0x41, 0x58, 0x2d, 0x47, 0x49]

/-- The ASCII bytes of the label "VAX-SAI". -/
def saiLabel : List Nat := [0x56, 0x41, 0x58, 0x2d, 0x53, 0x41, 0x49]

/-- The ASCII bytes of the label "VAX-GENESIS". -/
def genesisLabel : List Nat :=
  [0x56, 0x41, 0x58, 0x2d, 0x47, 0x45, 0x4e, 0x45, 0x53, 0x49, 0x53]

/-- Embeds `vax_compute_gi` of `src/c/src/gi.c`: the message is the 6 label
bytes followed by the counter as big-endian uint16 (`message[6] = (counter
>> 8) & 0xFF; message[7] = counter & 0xFF`), then HMAC-SHA256 under the
32-byte chain key.  The `VAX_ERR_INVALID_INPUT` branches of the C function fire
only on null pointers or a wrong HMAC output length, neither of which is
representable here, so the embedding returns the 32 output bytes of the
`VAX_OK` path directly. -/
def vax_compute_gi (k_chain : List Nat) (counter : Nat) : List Nat :=
  hmac_sha256 k_chain (giLabel ++ [(counter >>> 8) &&& 255, counter &&& 255])

/-- Modelled from the spec: the implementation of `vax_compute_sai` is not
under `src/` (the file `src/c/src/sai.c` holds a header, not code), so this
follows §4.3 of the spec: `anchor = Hash("VAX-SAI" ‖ prev_anchor ‖
Hash(payload) ‖ nonce)`, the form also documented on the declaration in
`src/c/include/vax.h` line 40, with the nonce an explicit parameter as in
the 5-argument declaration that `verify.c` and the tests call. -/
def vax_compute_sai (prev_sai sae gi : List Nat) : List Nat :=
  sha256 (saiLabel ++ prev_sai ++ sha256 sae ++ gi)

/-- Modelled from the spec: the implementation of `vax_compute_genesis_sai`
is not under `src/` (only declarations in both headers, which agree), so
this follows §4.1 of the spec: `anchor = Hash("VAX-GENESIS" ‖ actor_id ‖
salt)`. -/
def vax_compute_genesis_sai (actor_id genesis_salt : List Nat) : List Nat :=
  sha256 (genesisLabel ++ actor_id ++ genesis_salt)

/-- Embeds `vax_verify_action` of `src/c/src/verify.c`.  The canonical-form
predicate `vax_is_canonical` is an external collaborator (spec §6) whose
implementation is not under `src/`, so the verifier is parameterized over
it.  The counter comparison `counter != expected_counter + 1` is computed in
C after integer promotion of both `uint16_t` operands to `int`, so it is
exact arithmetic with no 16-bit wraparound — modelled by `Nat` equality.
The two 32-byte `memcmp`s are modelled by list equality.  The C error
propagation from `vax_compute_gi` / `vax_compute_sai` cannot fire here
(those calls never fail on non-null buffers), matching the total embedded
versions of the two primitives. -/
def vax_verify_action (is_canonical : List Nat → Bool) (k_chain : List Nat)
    (expected_counter : Nat) (expected_prev_sai : List Nat)
    (counter : Nat) (prev_sai : List Nat) (sae : List Nat)
    (sai : List Nat) : vax_result_t :=
  if counter ≠ expected_counter + 1 then .VAX_ERR_INVALID_COUNTER
  else if prev_sai ≠ expected_prev_sai then .VAX_ERR_INVALID_PREV_SAI
  else if ¬ is_canonical sae then .VAX_ERR_INVALID_CANONICALIZATION
  else
    let computed_gi := vax_compute_gi k_chain counter
    let computed_sai := vax_compute_sai prev_sai sae computed_gi
    if sai ≠ computed_sai then .VAX_ERR_SAI_MISMATCH
    else .VAX_OK

/-- The mutable per-actor cursor (`vax_chain_t`): spec §3 ChainState
{ActorId, ChainSecret, Counter, CurrentAnchor}; the `src/c/src/sai.c` header
calls the current anchor `prevSAI`. -/
structure vax_chain where
  actor_id : List Nat
  k_chain : List Nat
  counter : Nat
  prev_sai : List Nat
  deriving DecidableEq

/-- Modelled from the spec: the implementation of `vax_chain_append` is not
under `src/` (only its declaration in the header stored as
`src/c/src/sai.c`), so this follows §4.4 of the spec: it fails with
`CounterOverflow` if `state.Counter == 65535` before incrementing, otherwise
computes `nonce = derive_nonce(secret, Counter+1)` and `new_anchor =
next_anchor(CurrentAnchor, payload, nonce)` and atomically advances the
cursor.  The payload is taken already canonical, as in the contract
`append(state, canonical_payload)` of §4.4 (JSON canonicalization is the external
collaborator of §6).  The returned pair is the result code and the
post-state. -/
def vax_chain_append (chain : vax_chain) (sae : List Nat) :
    vax_result_t × vax_chain :=
  if chain.counter = 65535 then (.VAX_ERR_COUNTER_OVERFLOW, chain)
  else
    let gi := vax_compute_gi chain.k_chain (chain.counter + 1)
    let sai := vax_compute_sai chain.prev_sai sae gi
    (.VAX_OK, { chain with counter := chain.counter + 1, prev_sai := sai })

/-! ## Known vectors hard-coded in the test suite -/

/-- The expected HMAC output of `test_gi_known_vector` in
`src/c/test/test_gi.c` (lines 122 to 127). -/
def giKnownVector : List Nat :=
  [0x96, 0xb0, 0xdb, 0xce, 0xc7, 0x70, 0x32, 0x02,
   0x38, 0x71, 0xb0, 0xdf, 0x25, 0x21, 0x47, 0x23,
   0xe5, 0xb0, 0x53, 0xda, 0x24, 0xd5, 0x0b, 0x8f,
   0x33, 0x38, 0xea, 0x55, 0xf9, 0x96, 0x6a, 0x69]

/-- The golden genesis anchor of `test_genesis_sai` in
`src/c/test/test_sai.c` (lines 35 to 40). -/
def genesisKnownVector : List Nat :=
  [0xaf, 0xc5, 0x07, 0x28, 0xcd, 0x79, 0xe8, 0x05,
   0xa8, 0xae, 0x06, 0x87, 0x5a, 0x1d, 0xdf, 0x78,
   0xca, 0x11, 0xb0, 0xd5, 0x6e, 0xc3, 0x00, 0xb1,
   0x60, 0xfb, 0x71, 0xf5, 0x0c, 0xe6, 0x58, 0xc3]

/-- The ASCII bytes of the actor id "user123:device456" of the genesis
known-vector test. -/
def testActorId : List Nat :=
  [0x75, 0x73, 0x65, 0x72, 0x31, 0x32, 0x33, 0x3a,
   0x64, 0x65, 0x76, 0x69, 0x63, 0x65, 0x34, 0x35, 0x36]

/-- The 16-byte salt `0xa1 .. 0xb0` of the genesis known-vector test. -/
def testGenesisSalt : List Nat :=
  [0xa1, 0xa2, 0xa3, 0xa4, 0xa5, 0xa6, 0xa7, 0xa8,
   0xa9, 0xaa, 0xab, 0xac, 0xad, 0xae, 0xaf, 0xb0]

/-! ## General facts about the embedding -/

/-- All 32-bit digest words serialize to exactly 32 bytes. -/
theorem length_stateBytes (s : Sha256State) : (stateBytes s).length = 32 := by
  simp [stateBytes, be32]

/-- A SHA-256 digest is exactly 32 bytes long. -/
theorem length_sha256 (msg : List Nat) : (sha256 msg).length = 32 :=
  length_stateBytes _

set_option maxRecDepth 100000

/-- The big-endian counter encodings of 1 and 256 are byte-swaps of each
other, so the two gi messages of `src/c/src/gi.c` differ; for the all-zero
key the two HMAC outputs indeed differ, computed by the kernel (this is the
instance `test_gi_endianness` checks). -/
theorem gi_endianness_zero_key :
    vax_compute_gi (List.replicate 32 0) 1 ≠ vax_compute_gi (List.replicate 32 0) 256 := by
  decide

/-! ## The claims -/

/-- C1, counterexample: `vax_verify_action` invoked with `expected_counter =
65535` (and all-zero buffers, submitted counter 0, a trivially true
canonical predicate) does not return `VAX_ERR_COUNTER_OVERFLOW`: the C code
of `src/c/src/verify.c` has no overflow guard, and the promoted comparison
`counter != expected_counter + 1` fails every uint16 counter first. -/
theorem C1_counterexample :
    vax_verify_action (fun _ => true) (List.replicate 32 0) 65535
        (List.replicate 32 0) 0 (List.replicate 32 0) [] (List.replicate 32 0) ≠
      vax_result_t.VAX_ERR_COUNTER_OVERFLOW := by
  decide

/-- C1, amended: with `expected_counter = 65535`, `vax_verify_action` fails
with `VAX_ERR_INVALID_COUNTER` — not `CounterOverflow` — for every value of
the other arguments (every uint16 submitted counter, every buffer, every
canonical predicate). -/
theorem C1_expected_counter_max_fails_invalid_counter
    (canon : List Nat → Bool) (k epa pa sae sai : List Nat) (c : Nat)
    (hc : c < 65536) :
    vax_verify_action canon k 65535 epa c pa sae sai =
      vax_result_t.VAX_ERR_INVALID_COUNTER := by
  have h : c ≠ 65535 + 1 := by omega
  unfold vax_verify_action
  rw [if_pos h]

/-- C1, witness for the amended claim at submitted counter 123. -/
theorem C1_witness :
    vax_verify_action (fun _ => true) (List.replicate 32 0) 65535
        (List.replicate 32 0) 123 (List.replicate 32 0) [] (List.replicate 32 0) =
      vax_result_t.VAX_ERR_INVALID_COUNTER :=
  C1_expected_counter_max_fails_invalid_counter (fun _ => true)
    (List.replicate 32 0) (List.replicate 32 0) (List.replicate 32 0) []
    (List.replicate 32 0) 123 (by decide)

/-- C2: for every 32-byte previous anchor, every payload, and every 32-byte
nonce, the next anchor is SHA-256 of "VAX-SAI" followed by the previous
anchor, the inner SHA-256 digest of the payload, and the nonce; the outer
hash input consequently has the fixed length 7 + 32 + 32 + 32 = 103
regardless of payload size. -/
theorem C2_sai_chain_hash_construction (prev_anchor payload nonce : List Nat)
    (hp : prev_anchor.length = 32) (hn : nonce.length = 32) :
    vax_compute_sai prev_anchor payload nonce =
      sha256 (saiLabel ++ prev_anchor ++ sha256 payload ++ nonce) ∧
    (saiLabel ++ prev_anchor ++ sha256 payload ++ nonce).length = 103 := by
  refine ⟨rfl, ?_⟩
  simp [saiLabel, hp, hn, length_sha256]

/-- C2, witness at a 32-byte anchor of 0x11 bytes, the one-byte payload
0x61, and a 32-byte nonce of 0x22 bytes. -/
theorem C2_witness :
    (List.replicate 32 0x11 : List Nat).length = 32 ∧
    (List.replicate 32 0x22 : List Nat).length = 32 ∧
    (vax_compute_sai (List.replicate 32 0x11) [0x61] (List.replicate 32 0x22) =
       sha256 (saiLabel ++ List.replicate 32 0x11 ++ sha256 [0x61] ++
               List.replicate 32 0x22) ∧
     (saiLabel ++ List.replicate 32 0x11 ++ sha256 [0x61] ++
      List.replicate 32 0x22).length = 103) :=
  ⟨by decide, by decide,
   C2_sai_chain_hash_construction (List.replicate 32 0x11) [0x61]
     (List.replicate 32 0x22) (by decide) (by decide)⟩

/-- C3: for every 32-byte chain secret and every uint16 counter,
`vax_compute_gi` outputs HMAC-SHA256 keyed by the secret over "VAX-GI"
followed by the big-endian 2-byte counter (success, i.e. the `VAX_OK` path
of gi.c, is implicit in the total embedding); and for the all-zero key and
counter 1 the output is the hard-coded vector of `test_gi_known_vector`,
checked here by kernel computation. -/
theorem C3_gi_hmac_derivation (k : List Nat) (c : Nat)
    (hk : k.length = 32) (hc : c < 65536) :
    vax_compute_gi k c =
      hmac_sha256 k (giLabel ++ [(c >>> 8) &&& 255, c &&& 255]) ∧
    vax_compute_gi (List.replicate 32 0) 1 = giKnownVector :=
  ⟨rfl, by decide⟩

/-- C3, witness at the all-zero 32-byte key and counter 1. -/
theorem C3_witness :
    (List.replicate 32 0 : List Nat).length = 32 ∧ (1 : Nat) < 65536 ∧
    (vax_compute_gi (List.replicate 32 0) 1 =
       hmac_sha256 (List.replicate 32 0)
         (giLabel ++ [(1 >>> 8) &&& 255, 1 &&& 255]) ∧
     vax_compute_gi (List.replicate 32 0) 1 = giKnownVector) :=
  ⟨by decide, by decide,
   C3_gi_hmac_derivation (List.replicate 32 0) 1 (by decide) (by decide)⟩

/-- C4: `vax_verify_action` short-circuits at the first failing check in the
fixed order counter, previous anchor, canonical form, recomputed anchor, and
maps each to its error; it returns `VAX_OK` exactly when all pass; and
submitting counter N + 2 when N is expected fails with
`VAX_ERR_INVALID_COUNTER`. -/
theorem C4_verifier_check_order (canon : List Nat → Bool)
    (k epa pa sae sai : List Nat) (ec c : Nat) :
    (c ≠ ec + 1 →
      vax_verify_action canon k ec epa c pa sae sai =
        vax_result_t.VAX_ERR_INVALID_COUNTER) ∧
    (c = ec + 1 → pa ≠ epa →
      vax_verify_action canon k ec epa c pa sae sai =
        vax_result_t.VAX_ERR_INVALID_PREV_SAI) ∧
    (c = ec + 1 → pa = epa → canon sae = false →
      vax_verify_action canon k ec epa c pa sae sai =
        vax_result_t.VAX_ERR_INVALID_CANONICALIZATION) ∧
    (c = ec + 1 → pa = epa → canon sae = true →
      sai ≠ vax_compute_sai pa sae (vax_compute_gi k c) →
      vax_verify_action canon k ec epa c pa sae sai =
        vax_result_t.VAX_ERR_SAI_MISMATCH) ∧
    (c = ec + 1 → pa = epa → canon sae = true →
      sai = vax_compute_sai pa sae (vax_compute_gi k c) →
      vax_verify_action canon k ec epa c pa sae sai = vax_result_t.VAX_OK) ∧
    (vax_verify_action canon k ec epa (ec + 2) pa sae sai =
      vax_result_t.VAX_ERR_INVALID_COUNTER) := by
  refine ⟨?_, ?_, ?_, ?_, ?_, ?_⟩
  · intro h1
    unfold vax_verify_action
    rw [if_pos h1]
  · intro h1 h2
    simp [vax_verify_action, h1, h2]
  · intro h1 h2 h3
    simp [vax_verify_action, h1, h2, h3]
  · intro h1 h2 h3 h4
    subst h1
    subst h2
    simp [vax_verify_action, h3, h4]
  · intro h1 h2 h3 h4
    simp [vax_verify_action, h1, h2, h3, h4]
  · have h1 : ec + 2 ≠ ec + 1 := by omega
    unfold vax_verify_action
    rw [if_pos h1]

/-- C4, witness: submitting counter 7 when 5 is expected (N + 2) is rejected
as `VAX_ERR_INVALID_COUNTER`. -/
theorem C4_witness :
    vax_verify_action (fun _ => true) (List.replicate 32 0) 5
        (List.replicate 32 0) 7 (List.replicate 32 0) [] (List.replicate 32 0) =
      vax_result_t.VAX_ERR_INVALID_COUNTER :=
  (C4_verifier_check_order (fun _ => true) (List.replicate 32 0)
      (List.replicate 32 0) (List.replicate 32 0) [] (List.replicate 32 0)
      5 7).1 (by decide)

/-- C5: for every chain secret, genesis anchor and pair of payloads accepted
by the canonical predicate, the 2-action chain whose anchors are
`sai1 = next_anchor(genesis, p1, gi(k, 1))` and
`sai2 = next_anchor(sai1, p2, gi(k, 2))` verifies end-to-end at the matching
expected cursors; and re-submitting action 2 with the genesis anchor as its
previous anchor (when, as always in practice, it differs from `sai1`) fails
with `VAX_ERR_INVALID_PREV_SAI`. -/
theorem C5_chain_continuity (canon : List Nat → Bool) (k g p1 p2 : List Nat)
    (h1 : canon p1 = true) (h2 : canon p2 = true)
    (hne : g ≠ vax_compute_sai g p1 (vax_compute_gi k 1)) :
    vax_verify_action canon k 0 g 1 g p1
        (vax_compute_sai g p1 (vax_compute_gi k 1)) = vax_result_t.VAX_OK ∧
    vax_verify_action canon k 1 (vax_compute_sai g p1 (vax_compute_gi k 1)) 2
        (vax_compute_sai g p1 (vax_compute_gi k 1)) p2
        (vax_compute_sai (vax_compute_sai g p1 (vax_compute_gi k 1)) p2
          (vax_compute_gi k 2)) = vax_result_t.VAX_OK ∧
    vax_verify_action canon k 1 (vax_compute_sai g p1 (vax_compute_gi k 1)) 2
        g p2
        (vax_compute_sai (vax_compute_sai g p1 (vax_compute_gi k 1)) p2
          (vax_compute_gi k 2)) = vax_result_t.VAX_ERR_INVALID_PREV_SAI := by
  refine ⟨?_, ?_, ?_⟩
  · simp [vax_verify_action, h1]
  · simp [vax_verify_action, h2]
  · simp [vax_verify_action, hne]

/-- The 32-byte chain secret of 0x42 bytes used by `test_verify_sequence`. -/
def testKChain : List Nat := List.replicate 32 0x42

/-- The genesis anchor of actor "test:device" with a salt of 16 0xCD bytes,
as in `test_verify_sequence`. -/
def testSeqGenesis : List Nat :=
  vax_compute_genesis_sai
    [0x74, 0x65, 0x73, 0x74, 0x3a, 0x64, 0x65, 0x76, 0x69, 0x63, 0x65]
    (List.replicate 16 0xCD)

/-- The bytes of the first test payload, the JSON text with key "action" and
value "create" used by `test_verify_sequence`. -/
def testSae1 : List Nat :=
  [0x7b, 0x22, 0x61, 0x63, 0x74, 0x69, 0x6f, 0x6e, 0x22, 0x3a,
   0x22, 0x63, 0x72, 0x65, 0x61, 0x74, 0x65, 0x22, 0x7d]

/-- The bytes of the second test payload, the JSON text with key "action"
and value "update" used by `test_verify_sequence`. -/
def testSae2 : List Nat :=
  [0x7b, 0x22, 0x61, 0x63, 0x74, 0x69, 0x6f, 0x6e, 0x22, 0x3a,
   0x22, 0x75, 0x70, 0x64, 0x61, 0x74, 0x65, 0x22, 0x7d]

/-- C5, witness at the concrete chain of `test_verify_sequence` (secret of
0x42 bytes, actor "test:device", salt of 0xCD bytes, the two JSON payloads),
with the genesis-versus-first-anchor inequality computed by the kernel. -/
theorem C5_witness :
    ((fun _ : List Nat => true) testSae1 = true) ∧
    ((fun _ : List Nat => true) testSae2 = true) ∧
    testSeqGenesis ≠ vax_compute_sai testSeqGenesis testSae1 (vax_compute_gi testKChain 1) ∧
    (vax_verify_action (fun _ => true) testKChain 0 testSeqGenesis 1
        testSeqGenesis testSae1
        (vax_compute_sai testSeqGenesis testSae1 (vax_compute_gi testKChain 1)) =
        vax_result_t.VAX_OK ∧
     vax_verify_action (fun _ => true) testKChain 1
        (vax_compute_sai testSeqGenesis testSae1 (vax_compute_gi testKChain 1)) 2
        (vax_compute_sai testSeqGenesis testSae1 (vax_compute_gi testKChain 1))
        testSae2
        (vax_compute_sai
          (vax_compute_sai testSeqGenesis testSae1 (vax_compute_gi testKChain 1))
          testSae2 (vax_compute_gi testKChain 2)) = vax_result_t.VAX_OK ∧
     vax_verify_action (fun _ => true) testKChain 1
        (vax_compute_sai testSeqGenesis testSae1 (vax_compute_gi testKChain 1)) 2
        testSeqGenesis testSae2
        (vax_compute_sai
          (vax_compute_sai testSeqGenesis testSae1 (vax_compute_gi testKChain 1))
          testSae2 (vax_compute_gi testKChain 2)) =
        vax_result_t.VAX_ERR_INVALID_PREV_SAI) :=
  ⟨rfl, rfl, by decide,
   C5_chain_continuity (fun _ => true) testKChain testSeqGenesis testSae1
     testSae2 rfl rfl (by decide)⟩

/-- C6: genesis derivation, gi derivation, and the chain hash are
deterministic: two invocations with (pointwise equal) arguments return
identical output. -/
theorem C6_determinism (a1 a2 s1 s2 k1 k2 p1 p2 e1 e2 n1 n2 : List Nat)
    (c1 c2 : Nat) (ha : a1 = a2) (hs : s1 = s2) (hk : k1 = k2) (hc : c1 = c2)
    (hp : p1 = p2) (he : e1 = e2) (hn : n1 = n2) :
    vax_compute_genesis_sai a1 s1 = vax_compute_genesis_sai a2 s2 ∧
    vax_compute_gi k1 c1 = vax_compute_gi k2 c2 ∧
    vax_compute_sai p1 e1 n1 = vax_compute_sai p2 e2 n2 := by
  subst ha hs hk hc hp he hn
  exact ⟨rfl, rfl, rfl⟩

/-- C6, witness: running each derivation twice on the same concrete inputs
gives the same bytes. -/
theorem C6_witness :
    vax_compute_genesis_sai testActorId testGenesisSalt =
      vax_compute_genesis_sai testActorId testGenesisSalt ∧
    vax_compute_gi (List.replicate 32 0) 42 = vax_compute_gi (List.replicate 32 0) 42 ∧
    vax_compute_sai (List.replicate 32 0x11) [0x61] (List.replicate 32 0x22) =
      vax_compute_sai (List.replicate 32 0x11) [0x61] (List.replicate 32 0x22) :=
  C6_determinism testActorId testActorId testGenesisSalt testGenesisSalt
    (List.replicate 32 0) (List.replicate 32 0) (List.replicate 32 0x11)
    (List.replicate 32 0x11) [0x61] [0x61] (List.replicate 32 0x22)
    (List.replicate 32 0x22) 42 42 rfl rfl rfl rfl rfl rfl rfl

/-- C7: for every non-empty actor id and 16-byte salt the genesis anchor is
SHA-256 of "VAX-GENESIS" followed by the actor id and the salt; for actor id
"user123:device456" and salt `0xa1 .. 0xb0` it equals the golden vector of
`test_genesis_sai`, checked here by kernel computation. -/
theorem C7_genesis_derivation (actor salt : List Nat)
    (ha : actor ≠ []) (hs : salt.length = 16) :
    vax_compute_genesis_sai actor salt =
      sha256 (genesisLabel ++ actor ++ salt) ∧
    vax_compute_genesis_sai testActorId testGenesisSalt = genesisKnownVector :=
  ⟨rfl, by decide⟩

/-- C7, witness at the known-vector actor id and salt. -/
theorem C7_witness :
    testActorId ≠ [] ∧ testGenesisSalt.length = 16 ∧
    (vax_compute_genesis_sai testActorId testGenesisSalt =
       sha256 (genesisLabel ++ testActorId ++ testGenesisSalt) ∧
     vax_compute_genesis_sai testActorId testGenesisSalt = genesisKnownVector) :=
  ⟨by decide, by decide,
   C7_genesis_derivation testActorId testGenesisSalt (by decide) (by decide)⟩

/-- C9: appending to a chain whose counter is already 65535 fails with
`VAX_ERR_COUNTER_OVERFLOW` and returns the state unchanged — neither the
counter nor the current anchor is mutated. -/
theorem C9_append_overflow_atomic (chain : vax_chain) (sae : List Nat)
    (h : chain.counter = 65535) :
    vax_chain_append chain sae =
      (vax_result_t.VAX_ERR_COUNTER_OVERFLOW, chain) := by
  simp [vax_chain_append, h]

/-- A concrete cursor sitting at the maximum counter. -/
def chainAtMax : vax_chain :=
  ⟨testActorId, List.replicate 32 0, 65535, List.replicate 32 0⟩

/-- C9, witness at a concrete cursor with counter 65535. -/
theorem C9_witness :
    chainAtMax.counter = 65535 ∧
    vax_chain_append chainAtMax [0x61] =
      (vax_result_t.VAX_ERR_COUNTER_OVERFLOW, chainAtMax) :=
  ⟨rfl, C9_append_overflow_atomic chainAtMax [0x61] rfl⟩

/-- C10: at `expected_counter = 65535` the verifier rejects every uint16
submitted counter (0 included: the successor comparison is promoted exact
arithmetic, not 16-bit wraparound) with `VAX_ERR_INVALID_COUNTER`; and no
input whatsoever makes `vax_verify_action` return
`VAX_ERR_COUNTER_OVERFLOW`. -/
theorem C10_no_wraparound_never_overflow (canon : List Nat → Bool)
    (k epa pa sae sai : List Nat) (c : Nat) (hc : c < 65536) :
    vax_verify_action canon k 65535 epa c pa sae sai =
      vax_result_t.VAX_ERR_INVALID_COUNTER ∧
    ∀ (canon2 : List Nat → Bool) (k2 epa2 pa2 sae2 sai2 : List Nat)
      (ec2 c2 : Nat),
      vax_verify_action canon2 k2 ec2 epa2 c2 pa2 sae2 sai2 ≠
        vax_result_t.VAX_ERR_COUNTER_OVERFLOW := by
  constructor
  · have h : c ≠ 65535 + 1 := by omega
    unfold vax_verify_action
    rw [if_pos h]
  · intro canon2 k2 epa2 pa2 sae2 sai2 ec2 c2
    unfold vax_verify_action
    split
    · decide
    split
    · decide
    split
    · decide
    dsimp only
    split
    · decide
    · decide

/-- C10, witness: submitted counter 0 at expected counter 65535 (with
all-zero buffers) is rejected as `VAX_ERR_INVALID_COUNTER`, not accepted as
a wrapped-around successor. -/
theorem C10_witness :
    vax_verify_action (fun _ => true) (List.replicate 32 0) 65535
        (List.replicate 32 0) 0 (List.replicate 32 0) [] (List.replicate 32 0) =
      vax_result_t.VAX_ERR_INVALID_COUNTER :=
  (C10_no_wraparound_never_overflow (fun _ => true) (List.replicate 32 0)
      (List.replicate 32 0) (List.replicate 32 0) [] (List.replicate 32 0)
      0 (by decide)).1

end Vax
